import Mathlib

/-!
Verification of the flash-sale checkout and coupon-redemption engine
(flashSale.py) against its design specification.

The embedding models the sqlite store as a pure state value and each HTTP
handler as a state-passing function:

  orders table      -> association list of (id, Order)
  coupons table     -> list of Coupon (code is the primary key)
  coupon_redemptions-> list of (user_id, coupon_code) pairs, in insertion
                       order; the schema has NO uniqueness constraint on the
                       pair, so the list may hold duplicates, exactly as the
                       CREATE TABLE statement allows
  status column     -> a String, as in the TEXT column

Concurrent redemption is modelled by splitting redeem_coupon into its two
database phases, the read/check phase (steps 1-2 of the handler) and the
commit phase (step 4, one atomic sqlite commit of UPDATE + INSERT); the
time.sleep(0.3) call between them is the scheduling yield point.  An
interleaving is a list of thread indices.
-/

/-- The orders.status literal for a pending order. -/
def sPENDING : String := "PENDING"

/-- The orders.status literal for a paid order. -/
def sPAID : String := "PAID"

/-- The orders.status literal for a shipped order. -/
def sSHIPPED : String := "SHIPPED"

/-- The orders.status literal for a cancelled order. -/
def sCANCELLED : String := "CANCELLED"

/-- The constant tracking token returned by ship_order. -/
def trackToken : String := "TRACK-12345"

/-- One row of the coupons table:
(code TEXT PRIMARY KEY, discount INTEGER, max_uses INTEGER, current_uses INTEGER). -/
structure Coupon where
  code : String
  discount : Int
  max_uses : Int
  current_uses : Int
deriving DecidableEq

/-- One row of the orders table (the id is the key of the association list):
(user_id INTEGER, total_amount INTEGER, status TEXT). -/
structure Order where
  user_id : Nat
  total_amount : Int
  status : String
deriving DecidableEq

/-- The persistent store (shop.db).  nextOrderId models sqlite rowid
assignment for the orders table. -/
structure DB where
  orders : List (Nat × Order)
  coupons : List Coupon
  redemptions : List (Nat × String)
  nextOrderId : Nat
deriving DecidableEq

/-- SELECT * FROM coupons WHERE code = ? (first matching row). -/
def findCoupon (db : DB) (code : String) : Option Coupon :=
  db.coupons.find? (fun c => c.code == code)

/-- SELECT * FROM orders WHERE id = ? (first matching row). -/
def findOrder (db : DB) (oid : Nat) : Option Order :=
  (db.orders.find? (fun p => p.1 == oid)).map (fun p => p.2)

/-- SELECT * FROM coupon_redemptions WHERE user_id = ? AND coupon_code = ?
returned a row. -/
def hasRedemption (db : DB) (uid : Nat) (code : String) : Bool :=
  db.redemptions.any (fun r => r.1 == uid && r.2 == code)

/-- UPDATE coupons SET current_uses = current_uses + 1 WHERE code = ?. -/
def incCouponUses (db : DB) (code : String) : DB :=
  { db with coupons :=
      db.coupons.map (fun c =>
        if c.code == code then { c with current_uses := c.current_uses + 1 } else c) }

/-- INSERT INTO coupon_redemptions (user_id, coupon_code) VALUES (?, ?);
the table has no uniqueness constraint, so the insert always succeeds. -/
def insertRedemption (db : DB) (uid : Nat) (code : String) : DB :=
  { db with redemptions := db.redemptions ++ [(uid, code)] }

/-- UPDATE orders SET status = ? WHERE id = ?. -/
def setOrderStatus (db : DB) (oid : Nat) (st : String) : DB :=
  { db with orders :=
      db.orders.map (fun p =>
        if p.1 == oid then (p.1, { p.2 with status := st }) else p) }

/-- Outcomes of the /api/coupons/redeem handler. -/
inductive RedeemResult where
  | unauthorized
  | invalidCoupon
  | couponExhausted
  | alreadyUsed
  | redemptionFailed
  | applied (discount : Int)
deriving DecidableEq

/-- The /api/coupons/redeem handler (redeem_coupon), sequential semantics.
user is g.user (None when the X-User-ID header resolved to no user);
commitOk models whether the final conn.commit() of step 4 succeeds -- on
failure the handler rolls back, leaving the store untouched. -/
def redeem_coupon (db : DB) (user : Option Nat) (code : String) (commitOk : Bool) :
    RedeemResult × DB :=
  match user with
  | none => (RedeemResult.unauthorized, db)
  | some uid =>
    match findCoupon db code with
    | none => (RedeemResult.invalidCoupon, db)
    | some coupon =>
      if coupon.max_uses ≤ coupon.current_uses then
        (RedeemResult.couponExhausted, db)
      else if hasRedemption db uid code then
        (RedeemResult.alreadyUsed, db)
      else if commitOk then
        (RedeemResult.applied coupon.discount,
         insertRedemption (incCouponUses db code) uid code)
      else
        (RedeemResult.redemptionFailed, db)

/-- Outcome of the /api/payment/process handler: the handler performs an
unconditional UPDATE and always reports status PAID. -/
inductive PayResult where
  | paid
deriving DecidableEq

/-- The /api/payment/process handler (process_payment): runs
UPDATE orders SET status = PAID WHERE id = ? with no existence or state
check, and returns a success body unconditionally. -/
def process_payment (db : DB) (order_id : Nat) : PayResult × DB :=
  (PayResult.paid, setOrderStatus db order_id sPAID)

/-- Outcomes of the /api/logistics/ship handler. -/
inductive ShipResult where
  | orderNotFound
  | invalidState
  | shipped (tracking : String)
deriving DecidableEq

/-- The /api/logistics/ship handler (ship_order): 404 when the order id is
unknown, 400 when the status is SHIPPED or CANCELLED, otherwise sets the
status to SHIPPED and returns the constant tracking token. -/
def ship_order (db : DB) (order_id : Nat) : ShipResult × DB :=
  match findOrder db order_id with
  | none => (ShipResult.orderNotFound, db)
  | some order =>
    if order.status == sSHIPPED || order.status == sCANCELLED then
      (ShipResult.invalidState, db)
    else
      (ShipResult.shipped trackToken, setOrderStatus db order_id sSHIPPED)

/-- Outcomes of the /api/cart/checkout handler. -/
inductive CreateResult where
  | unauthorized
  | created (order_id : Nat) (status : String)
deriving DecidableEq

/-- The /api/cart/checkout handler (create_order): inserts a PENDING order
with total_amount taken verbatim from the request body (no validation). -/
def create_order (db : DB) (user : Option Nat) (total : Int) : CreateResult × DB :=
  match user with
  | none => (CreateResult.unauthorized, db)
  | some uid =>
    (CreateResult.created db.nextOrderId sPENDING,
     { db with
        orders := db.orders ++ [(db.nextOrderId,
          { user_id := uid, total_amount := total, status := sPENDING })],
        nextOrderId := db.nextOrderId + 1 })

/-- current_uses of the first coupon row with the given code. -/
def currentUsesOf (db : DB) (code : String) : Option Int :=
  (findCoupon db code).map (fun c => c.current_uses)

/-- max_uses of the first coupon row with the given code. -/
def maxUsesOf (db : DB) (code : String) : Option Int :=
  (findCoupon db code).map (fun c => c.max_uses)

/-- Whether a redemption outcome is the success outcome. -/
def isApplied : RedeemResult → Bool
  | RedeemResult.applied _ => true
  | _ => false

/-- Every coupon row satisfies current_uses less-or-equal max_uses (the
well-formedness every reachable sequential state enjoys). -/
def couponsWF (db : DB) : Bool :=
  db.coupons.all (fun c => c.current_uses ≤ c.max_uses)

/-!
Interleaving model of concurrent redemption.  A redemption request by thread
t decomposes into two atomic database phases of redeem_coupon:

  Phase.start      -> the read/check phase: steps 1-2 of the handler
                      (SELECT the coupon, capacity check, SELECT the prior
                      redemption).  If a check fails the request finishes
                      with that failure; otherwise the thread caches the
                      discount it read and enters Phase.validated.
  Phase.validated  -> the request is inside the time.sleep(0.3) external
                      validation call; its next step is the commit phase:
                      step 4 of the handler, one atomic sqlite commit of
                      the UPDATE (re-reading current_uses at commit time)
                      and the INSERT.
  Phase.done r     -> the request finished with result r.

A schedule is the list of thread indices in the order their next phase runs
against the shared store.
-/

/-- The identity and coupon code of one concurrent redemption request. -/
structure ThreadIn where
  uid : Nat
  code : String
deriving DecidableEq

/-- Progress of one concurrent redemption request. -/
inductive Phase where
  | start
  | validated (discount : Int)
  | done (r : RedeemResult)
deriving DecidableEq

/-- Shared store plus the progress of every in-flight redemption request. -/
structure RaceState where
  db : DB
  threads : List (ThreadIn × Phase)
deriving DecidableEq

/-- Run the next atomic database phase of one request against the store. -/
def threadStep (db : DB) (t : ThreadIn) (p : Phase) : Phase × DB :=
  match p with
  | Phase.start =>
    match findCoupon db t.code with
    | none => (Phase.done RedeemResult.invalidCoupon, db)
    | some coupon =>
      if coupon.max_uses ≤ coupon.current_uses then
        (Phase.done RedeemResult.couponExhausted, db)
      else if hasRedemption db t.uid t.code then
        (Phase.done RedeemResult.alreadyUsed, db)
      else
        (Phase.validated coupon.discount, db)
  | Phase.validated d =>
    (Phase.done (RedeemResult.applied d),
     insertRedemption (incCouponUses db t.code) t.uid t.code)
  | Phase.done r => (Phase.done r, db)

/-- Schedule thread i for one step (out-of-range indices are no-ops). -/
def schedStep (s : RaceState) (i : Nat) : RaceState :=
  match s.threads[i]? with
  | none => s
  | some (t, p) =>
    let (q, db2) := threadStep s.db t p
    { db := db2, threads := s.threads.set i (t, q) }

/-- Run a whole schedule of thread steps. -/
def runSched (s : RaceState) (sched : List Nat) : RaceState :=
  sched.foldl schedStep s

/-- Results of the requests that have finished, in thread order. -/
def resultsOf (s : RaceState) : List RedeemResult :=
  s.threads.filterMap (fun tp =>
    match tp.2 with
    | Phase.done r => some r
    | _ => none)

/-- A coupon code used by the concrete scenarios. -/
def demoCode : String := "DEMO"

/-- A capacity-one coupon: discount 10, max_uses 1, current_uses 0. -/
def demoCoupon : Coupon :=
  { code := demoCode, discount := 10, max_uses := 1, current_uses := 0 }

/-- A store holding only the capacity-one coupon. -/
def raceDB : DB :=
  { orders := [], coupons := [demoCoupon], redemptions := [], nextOrderId := 1 }

/-- Two distinct users (1 and 2) racing for the capacity-one coupon. -/
def raceTwoUsers : RaceState :=
  { db := raceDB,
    threads := [({ uid := 1, code := demoCode }, Phase.start),
                ({ uid := 2, code := demoCode }, Phase.start)] }

/-- The same user (1) issuing two concurrent redemptions of the coupon. -/
def raceSameUser : RaceState :=
  { db := raceDB,
    threads := [({ uid := 1, code := demoCode }, Phase.start),
                ({ uid := 1, code := demoCode }, Phase.start)] }

/-- Both requests pass their checks before either commits: check A, check B,
commit A, commit B.  This is exactly the interleaving the time.sleep(0.3)
between check and commit makes overwhelmingly likely. -/
def interleaved : List Nat := [0, 1, 0, 1]

/-- An empty store. -/
def emptyDB : DB :=
  { orders := [], coupons := [], redemptions := [], nextOrderId := 1 }

/-- A store with one freshly created (PENDING) order, id 1, amount 500. -/
def pendingOrderDB : DB :=
  { orders := [(1, { user_id := 1, total_amount := 500, status := sPENDING })],
    coupons := [], redemptions := [], nextOrderId := 2 }

/-- A store with one PAID order, id 1. -/
def paidOrderDB : DB :=
  { orders := [(1, { user_id := 1, total_amount := 500, status := sPAID })],
    coupons := [], redemptions := [], nextOrderId := 2 }

/-- A store with one SHIPPED order, id 1. -/
def shippedOrderDB : DB :=
  { orders := [(1, { user_id := 1, total_amount := 500, status := sSHIPPED })],
    coupons := [], redemptions := [], nextOrderId := 2 }

/-- C1: the claim that the capacity check and the grant write are indivisible,
so that N concurrent verified callers on a capacity-C coupon yield exactly
min(N, C) successes, fails on the code: with capacity C = 1 and N = 2
distinct users, the schedule check-check-commit-commit (realizable because
the external-validation sleep sits between check and commit) makes BOTH
requests return the applied outcome and drives current_uses to 2. -/
theorem C1_race_two_applied_on_capacity_one :
    resultsOf (runSched raceTwoUsers interleaved) =
      [RedeemResult.applied 10, RedeemResult.applied 10] ∧
    currentUsesOf (runSched raceTwoUsers interleaved).db demoCode = some 2 ∧
    maxUsesOf raceDB demoCode = some 1 := by
  refine ⟨rfl, rfl, rfl⟩

/-- C2: the claim that at most one redemption record per (code, user) pair
ever exists, enforced by a uniqueness constraint on the store, fails on the
code: the coupon_redemptions table has no such constraint, and two
interleaved redemptions by the same user both pass the check-then-insert
sequence, leaving two records for the pair (user 1, DEMO) and two applied
outcomes. -/
theorem C2_duplicate_records_same_user :
    (runSched raceSameUser interleaved).db.redemptions =
      [(1, demoCode), (1, demoCode)] ∧
    resultsOf (runSched raceSameUser interleaved) =
      [RedeemResult.applied 10, RedeemResult.applied 10] := by
  refine ⟨rfl, rfl⟩

/-- C3: the claim that markShipped rejects a freshly created PENDING order
with INVALID_STATE fails on the code: ship_order only rejects SHIPPED and
CANCELLED, so on a PENDING order it succeeds, returns the tracking token and
marks the order SHIPPED. -/
theorem C3_ships_pending_order :
    (ship_order pendingOrderDB 1).1 = ShipResult.shipped trackToken ∧
    (findOrder (ship_order pendingOrderDB 1).2 1).map Order.status = some sSHIPPED := by
  refine ⟨rfl, rfl⟩

/-- C4: the claim that granted never exceeds capacity after any sequence of
redemption operations fails on the code under interleaving: after the
check-check-commit-commit schedule on the capacity-one coupon, current_uses
2 strictly exceeds max_uses 1. -/
theorem C4_capacity_bound_violated :
    currentUsesOf (runSched raceTwoUsers interleaved).db demoCode = some 2 ∧
    maxUsesOf (runSched raceTwoUsers interleaved).db demoCode = some 1 ∧
    (1 : Int) < 2 := by
  refine ⟨rfl, rfl, by decide⟩

/-- C5: the claim that payment confirmation fails with NOT_FOUND for a
nonexistent order id fails on the code: process_payment performs an
unconditional UPDATE and reports success PAID even when no order with that
id exists (order id 999 on an empty store). -/
theorem C5_pay_nonexistent_reports_success :
    findOrder emptyDB 999 = none ∧
    process_payment emptyDB 999 = (PayResult.paid, emptyDB) := by
  refine ⟨rfl, rfl⟩

/-- C6: the claim that SHIPPED is terminal fails on the code: process_payment
updates the status to PAID unconditionally, so a SHIPPED order moves back to
PAID. -/
theorem C6_shipped_order_moved_back_to_paid :
    (findOrder shippedOrderDB 1).map Order.status = some sSHIPPED ∧
    (findOrder (process_payment shippedOrderDB 1).2 1).map Order.status = some sPAID := by
  refine ⟨rfl, rfl⟩

/-- C9: the claim that negative totals are never stored fails on the code:
create_order stores the request total verbatim, so a checkout with total -5
creates a PENDING order whose total_amount is -5. -/
theorem C9_negative_amount_stored :
    create_order emptyDB (some 1) (-5) =
      (CreateResult.created 1 sPENDING,
       { orders := [(1, { user_id := 1, total_amount := -5, status := sPENDING })],
         coupons := [], redemptions := [], nextOrderId := 2 }) := by
  rfl

/-- Incrementing a coupon code rewrites the first row found for that code to
the same row with current_uses one higher. -/
theorem findCoupon_incCouponUses (db : DB) (code : String) :
    findCoupon (incCouponUses db code) code =
      (findCoupon db code).map (fun c => { c with current_uses := c.current_uses + 1 }) := by
  unfold findCoupon incCouponUses
  rw [List.find?_map]
  have hp : ((fun c : Coupon => c.code == code) ∘
      (fun c : Coupon =>
        if c.code == code then { c with current_uses := c.current_uses + 1 } else c)) =
      fun c : Coupon => c.code == code := by
    funext c
    by_cases h : c.code = code <;> simp [h]
  rw [hp]
  cases hf : db.coupons.find? (fun c => c.code == code) with
  | none => rfl
  | some c =>
    have hc := List.find?_some hf
    simp [hc]
    exact fun h => absurd (by simpa using hc) h

/-- A coupon row found in the store is a member of the coupons list. -/
theorem findCoupon_mem {db : DB} {code : String} {c : Coupon}
    (h : findCoupon db code = some c) : c ∈ db.coupons :=
  List.mem_of_find?_eq_some h

/-- In a well-formed store every found coupon has current_uses bounded by
max_uses. -/
theorem couponsWF_bound {db : DB} {c : Coupon} (hwf : couponsWF db = true)
    (hc : c ∈ db.coupons) : c.current_uses ≤ c.max_uses := by
  have := List.all_eq_true.mp hwf c hc
  simpa using this

/-- Inserting a redemption record does not touch the coupons table. -/
theorem findCoupon_insertRedemption (db : DB) (uid : Nat) (rc code : String) :
    findCoupon (insertRedemption db uid rc) code = findCoupon db code := rfl

/-- C7: sequential behavior of redeem_coupon on a well-formed store: an
unknown code fails with the not-found outcome; granted equal to capacity
fails with exhausted; an existing redemption record for (code, user) fails
with already-redeemed; otherwise the call returns the coupon discount,
increments current_uses of the code by exactly one, and appends exactly one
redemption record for the pair. -/
theorem C7_redeem_characterization (db : DB) (uid : Nat) (code : String)
    (hwf : couponsWF db = true) :
    (findCoupon db code = none →
       redeem_coupon db (some uid) code true = (RedeemResult.invalidCoupon, db)) ∧
    (∀ c, findCoupon db code = some c → c.current_uses = c.max_uses →
       redeem_coupon db (some uid) code true = (RedeemResult.couponExhausted, db)) ∧
    (∀ c, findCoupon db code = some c → c.current_uses ≠ c.max_uses →
       hasRedemption db uid code = true →
       redeem_coupon db (some uid) code true = (RedeemResult.alreadyUsed, db)) ∧
    (∀ c, findCoupon db code = some c → c.current_uses ≠ c.max_uses →
       hasRedemption db uid code = false →
       redeem_coupon db (some uid) code true =
         (RedeemResult.applied c.discount,
          insertRedemption (incCouponUses db code) uid code) ∧
       currentUsesOf (redeem_coupon db (some uid) code true).2 code =
         (currentUsesOf db code).map (fun n => n + 1) ∧
       (redeem_coupon db (some uid) code true).2.redemptions =
         db.redemptions ++ [(uid, code)]) := by
  refine ⟨?_, ?_, ?_, ?_⟩
  · intro h
    simp [redeem_coupon, h]
  · intro c hc he
    have hge : c.max_uses ≤ c.current_uses := le_of_eq he.symm
    simp [redeem_coupon, hc, hge]
  · intro c hc hne hred
    have hb := couponsWF_bound hwf (findCoupon_mem hc)
    have hlt : ¬ c.max_uses ≤ c.current_uses := by omega
    simp [redeem_coupon, hc, hlt, hred]
  · intro c hc hne hred
    have hb := couponsWF_bound hwf (findCoupon_mem hc)
    have hlt : ¬ c.max_uses ≤ c.current_uses := by omega
    have heq : redeem_coupon db (some uid) code true =
        (RedeemResult.applied c.discount,
         insertRedemption (incCouponUses db code) uid code) := by
      simp [redeem_coupon, hc, hlt, hred]
    refine ⟨heq, ?_, ?_⟩
    · rw [heq]
      simp [currentUsesOf, findCoupon_insertRedemption, findCoupon_incCouponUses, hc]
    · rw [heq]
      rfl

/-- C7 witness: on the store holding the fresh capacity-one coupon, user 1
redeeming DEMO succeeds with discount 10 and the grant state. -/
theorem C7_witness :
    redeem_coupon raceDB (some 1) demoCode true =
      (RedeemResult.applied demoCoupon.discount,
       insertRedemption (incCouponUses raceDB demoCode) 1 demoCode) :=
  ((C7_redeem_characterization raceDB 1 demoCode (by decide)).2.2.2 demoCoupon
    rfl (by decide) rfl).1

/-- C8: a redemption attempt mutates state only on success.  Every
non-applied outcome (unauthorized, unknown code, exhausted, already
redeemed, failed commit with rollback) returns the store unchanged; the
applied outcome returns exactly the grant state (one increment of the
coupon counter plus one appended redemption record); and the orders table is
never touched by a redemption. -/
theorem C8_mutation_only_on_success (db : DB) (user : Option Nat)
    (code : String) (commitOk : Bool) :
    (isApplied (redeem_coupon db user code commitOk).1 = false →
       (redeem_coupon db user code commitOk).2 = db) ∧
    (∀ uid c, user = some uid → findCoupon db code = some c →
       isApplied (redeem_coupon db user code commitOk).1 = true →
       (redeem_coupon db user code commitOk).2 =
         insertRedemption (incCouponUses db code) uid code ∧
       (redeem_coupon db user code commitOk).2.redemptions =
         db.redemptions ++ [(uid, code)]) ∧
    (redeem_coupon db user code commitOk).2.orders = db.orders := by
  match user with
  | none =>
    refine ⟨fun _ => rfl, ?_, rfl⟩
    intro uid c hu
    exact absurd hu (by simp)
  | some uid0 =>
    cases hfc : findCoupon db code with
    | none =>
      refine ⟨fun _ => by simp [redeem_coupon, hfc], ?_, by simp [redeem_coupon, hfc]⟩
      intro uid c hu hc
      exact absurd hc (by simp)
    | some coupon =>
      by_cases h1 : coupon.max_uses ≤ coupon.current_uses
      · refine ⟨fun _ => by simp [redeem_coupon, hfc, h1], ?_,
          by simp [redeem_coupon, hfc, h1]⟩
        intro uid c hu hc happ
        simp [redeem_coupon, hfc, h1, isApplied] at happ
      · by_cases h2 : hasRedemption db uid0 code = true
        · refine ⟨fun _ => by simp [redeem_coupon, hfc, h1, h2], ?_,
            by simp [redeem_coupon, hfc, h1, h2]⟩
          intro uid c hu hc happ
          simp [redeem_coupon, hfc, h1, h2, isApplied] at happ
        · have h2f : hasRedemption db uid0 code = false := by
            simpa using h2
          cases commitOk with
          | false =>
            refine ⟨fun _ => by simp [redeem_coupon, hfc, h1, h2f], ?_,
              by simp [redeem_coupon, hfc, h1, h2f]⟩
            intro uid c hu hc happ
            simp [redeem_coupon, hfc, h1, h2f, isApplied] at happ
          | true =>
            have heq : redeem_coupon db (some uid0) code true =
                (RedeemResult.applied coupon.discount,
                 insertRedemption (incCouponUses db code) uid0 code) := by
              simp [redeem_coupon, hfc, h1, h2f]
            refine ⟨?_, ?_, ?_⟩
            · intro happ
              rw [heq] at happ
              simp [isApplied] at happ
            · intro uid c hu hc
              have huid : uid = uid0 := by
                injection hu with h
                exact h.symm
              subst huid
              intro _
              rw [heq]
              exact ⟨rfl, rfl⟩
            · rw [heq]
              rfl

/-- C8 witness: a failing redemption (unknown code on the empty store)
leaves the store unchanged, and a successful one (user 2 on the fresh
capacity-one coupon) produces exactly the grant state. -/
theorem C8_witness :
    (redeem_coupon emptyDB (some 1) demoCode true).2 = emptyDB ∧
    (redeem_coupon raceDB (some 2) demoCode true).2 =
      insertRedemption (incCouponUses raceDB demoCode) 2 demoCode :=
  ⟨(C8_mutation_only_on_success emptyDB (some 1) demoCode true).1 (by decide),
   ((C8_mutation_only_on_success raceDB (some 2) demoCode true).2.1 2 demoCoupon
     rfl rfl (by decide)).1⟩

/-- C10: every successful fulfillment call returns the same constant
tracking token TRACK-12345, a non-empty string, whatever the store, the
order and its history: tracking tokens are not unique per order. -/
theorem C10_constant_tracking_token (db : DB) (oid : Nat) (t : String)
    (db2 : DB) (h : ship_order db oid = (ShipResult.shipped t, db2)) :
    t = trackToken ∧ t ≠ "" := by
  have ht : t = trackToken := by
    unfold ship_order at h
    cases hfo : findOrder db oid with
    | none =>
      rw [hfo] at h
      exact absurd h (by simp)
    | some o =>
      rw [hfo] at h
      by_cases hs : (o.status == sSHIPPED || o.status == sCANCELLED) = true
      · simp [hs] at h
      · simp [hs] at h
        exact h.1.symm
  subst ht
  exact ⟨rfl, by decide⟩

/-- C10 witness: shipping the PAID order with id 1 returns exactly the
constant token, which is non-empty. -/
theorem C10_witness : trackToken = trackToken ∧ trackToken ≠ "" :=
  C10_constant_tracking_token paidOrderDB 1 trackToken
    (setOrderStatus paidOrderDB 1 sSHIPPED) rfl

/-- Faithfulness of the interleaving model: a request that runs its check
phase and then its commit phase with no interference finishes in exactly the
state and with exactly the result of the sequential redeem_coupon call with
a succeeding commit. -/
theorem runSched_single_thread_eq_redeem (db : DB) (t : ThreadIn) :
    runSched { db := db, threads := [(t, Phase.start)] } [0, 0] =
      { db := (redeem_coupon db (some t.uid) t.code true).2,
        threads := [(t, Phase.done (redeem_coupon db (some t.uid) t.code true).1)] } := by
  show schedStep (schedStep { db := db, threads := [(t, Phase.start)] } 0) 0 = _
  cases hfc : findCoupon db t.code with
  | none =>
    simp [schedStep, threadStep, redeem_coupon, hfc]
  | some coupon =>
    by_cases h1 : coupon.max_uses ≤ coupon.current_uses
    · simp [schedStep, threadStep, redeem_coupon, hfc, h1]
    · by_cases h2 : hasRedemption db t.uid t.code = true
      · simp [schedStep, threadStep, redeem_coupon, hfc, h1, h2]
      · have h2f : hasRedemption db t.uid t.code = false := by simpa using h2
        simp [schedStep, threadStep, redeem_coupon, hfc, h1, h2f]
